import Mathlib

/-!
Shallow embedding of the dcgm-fake-gpu-exporter repository
(`src/dcgm_fake_manager.py`, `src/dcgm_exporter.py`, `src/dcgm_uds_server.py`).

Python integers are modelled as `ℤ`, Python floats as `ℚ` (the float values
that matter to the verified properties are produced by `min`/`max`/`+`/`*`
on small decimal constants, where IEEE rounding cannot cross any of the
integer clamp bounds involved), `random.randint`/`random.random` draws are
modelled as explicit inputs carried in a `Draws` record, and `math.sin` is
modelled as an abstract rational input (the properties proved here do not
depend on its value).
-/

/-- `MetricProfile._clamp(value, min_val, max_val)` from
`dcgm_fake_manager.py`: `max(min_val, min(max_val, value))`, integer case. -/
def MetricProfile.clamp (value min_val max_val : ℤ) : ℤ :=
  max min_val (min max_val value)

/-- `MetricProfile._clamp` applied to Python floats (Wave/Degrading call
sites), modelled over `ℚ`. -/
def MetricProfile.clampQ (value min_val max_val : ℚ) : ℚ :=
  max min_val (min max_val value)

/-- Python `int()` applied to a float: truncation toward zero. -/
def pyInt (q : ℚ) : ℤ := if q < 0 then ⌈q⌉ else ⌊q⌋

/-- One device's per-tick metric sample, the dict returned by every
profile's `apply` (keys `temp, power, gpu_util, mem_util, sm_clock,
mem_clock, fb_used`). All profiles return integer values. -/
structure Sample where
  temp : ℤ
  power : ℤ
  gpu_util : ℤ
  mem_util : ℤ
  sm_clock : ℤ
  mem_clock : ℤ
  fb_used : ℤ
  deriving DecidableEq, Repr

/-- The fresh randomness one `apply` call may consume, made explicit.
`tempD … fbD` stand for the per-field `random.randint` draws, `u` for
`random.random()` (spike / faulty entry checks), `cdraw` for
`random.randint(3, 10)` (faulty countdown), `pchoice` for
`random.choice([50, 100, 300, 350])` (faulty power), and `w` for the
floating-point value `math.sin(phase)` of the Wave profile. -/
structure Draws where
  tempD : ℤ := 0
  powerD : ℤ := 0
  utilD : ℤ := 0
  memD : ℤ := 0
  smD : ℤ := 0
  memcD : ℤ := 0
  fbD : ℤ := 0
  u : ℚ := 0
  cdraw : ℤ := 0
  pchoice : ℤ := 50
  w : ℚ := 0
  deriving DecidableEq

/-- Per-device mutable profile state: `iteration` counts `apply` calls,
`is_faulting`/`fault_countdown` belong to the Faulty profile,
`time_offset` is the Wave profile's construction-time phase draw. -/
structure PState where
  iteration : ℕ := 0
  is_faulting : Bool := false
  fault_countdown : ℤ := 0
  time_offset : ℚ := 0
  deriving DecidableEq

/-- `StaticProfile.apply` from `dcgm_fake_manager.py` (lines 74-101). -/
def StaticProfile.apply (gpu_id : ℤ) (d : Draws) : Sample :=
  let temp := 50 + (gpu_id - 1) * 5 + d.tempD
  let power := 150 + (gpu_id - 1) * 20 + d.powerD
  let gpu_util := 30 + (gpu_id - 1) * 10 + d.utilD
  let mem_util := 40 + (gpu_id - 1) * 5 + d.memD
  let temp := MetricProfile.clamp temp 45 85
  let power := MetricProfile.clamp power 100 300
  let gpu_util := MetricProfile.clamp gpu_util 0 100
  let mem_util := MetricProfile.clamp mem_util 0 100
  let sm_clock := 1400 + d.smD
  let mem_clock := 877 + d.memcD
  let used_mem := 4096 + (gpu_id - 1) * 1024 + d.fbD
  let used_mem := MetricProfile.clamp used_mem 2048 14336
  { temp := temp, power := power, gpu_util := gpu_util, mem_util := mem_util,
    sm_clock := sm_clock, mem_clock := mem_clock, fb_used := used_mem }

/-- `StableProfile.apply` (lines 110-135). -/
def StableProfile.apply (gpu_id : ℤ) (d : Draws) : Sample :=
  let temp := 55 + (gpu_id - 1) * 3 + d.tempD
  let power := 180 + (gpu_id - 1) * 15 + d.powerD
  let gpu_util := 50 + (gpu_id - 1) * 5 + d.utilD
  let mem_util := 45 + (gpu_id - 1) * 3 + d.memD
  let temp := MetricProfile.clamp temp 45 90
  let power := MetricProfile.clamp power 100 350
  let gpu_util := MetricProfile.clamp gpu_util 0 100
  let mem_util := MetricProfile.clamp mem_util 0 100
  let sm_clock := 1400 + d.smD
  let mem_clock := 877 + d.memcD
  let used_mem := 6144 + (gpu_id - 1) * 512 + d.fbD
  let used_mem := MetricProfile.clamp used_mem 2048 14336
  { temp := temp, power := power, gpu_util := gpu_util, mem_util := mem_util,
    sm_clock := sm_clock, mem_clock := mem_clock, fb_used := used_mem }

/-- `SpikeProfile.apply` (lines 144-182); `d.u` is the `random.random()`
draw of the 20 % spike check. -/
def SpikeProfile.apply (gpu_id : ℤ) (d : Draws) : Sample :=
  let is_spiking := decide (d.u < 20 / 100)
  let temp := if is_spiking then 75 + d.tempD else 50 + (gpu_id - 1) * 4 + d.tempD
  let power := if is_spiking then 280 + d.powerD else 150 + (gpu_id - 1) * 15 + d.powerD
  let gpu_util := if is_spiking then 90 + d.utilD else 25 + (gpu_id - 1) * 8 + d.utilD
  let mem_util := if is_spiking then 85 + d.memD else 30 + (gpu_id - 1) * 5 + d.memD
  let used_mem := if is_spiking then 12288 + d.fbD else 4096 + (gpu_id - 1) * 1024 + d.fbD
  let temp := MetricProfile.clamp temp 45 95
  let power := MetricProfile.clamp power 100 350
  let gpu_util := MetricProfile.clamp gpu_util 0 100
  let mem_util := MetricProfile.clamp mem_util 0 100
  let used_mem := MetricProfile.clamp used_mem 2048 14336
  let sm_clock := if is_spiking then 1400 + d.smD else 1400 + d.smD
  let mem_clock := 877 + d.memcD
  { temp := temp, power := power, gpu_util := gpu_util, mem_util := mem_util,
    sm_clock := sm_clock, mem_clock := mem_clock, fb_used := used_mem }

/-- `WaveProfile.apply` (lines 192-235). `d.w` models the float
`wave = math.sin(phase)`; every property proved about this function is
independent of the sine's value, so it is left abstract. -/
def WaveProfile.apply (d : Draws) : Sample :=
  let wave := d.w
  let temp : ℚ := 60 + wave * 20
  let power : ℚ := 200 + wave * 80
  let gpu_util : ℚ := 50 + wave * 40
  let mem_util : ℚ := 50 + wave * 40 * (8 / 10)
  let used_mem : ℚ := 8192 + wave * 4096
  let temp := pyInt (MetricProfile.clampQ temp 45 90)
  let power := pyInt (MetricProfile.clampQ power 100 350)
  let gpu_util := pyInt (MetricProfile.clampQ gpu_util 0 100)
  let mem_util := pyInt (MetricProfile.clampQ mem_util 0 100)
  let used_mem := pyInt (MetricProfile.clampQ used_mem 2048 14336)
  let sm_clock := 1400 + pyInt (wave * 200)
  let mem_clock := 877 + pyInt (wave * 100)
  { temp := temp, power := power, gpu_util := gpu_util, mem_util := mem_util,
    sm_clock := sm_clock, mem_clock := mem_clock, fb_used := used_mem }

/-- `degradation_factor` of `DegradingProfile.apply` (line 249):
`min(self.iteration / 200.0, 0.5)` as a function of the post-increment
iteration count. -/
def DegradingProfile.degradation (iteration : ℕ) : ℚ :=
  min ((iteration : ℚ) / 200) (5 / 10)

/-- `DegradingProfile.apply` (lines 244-275); `st.iteration` is the
pre-increment count, the body uses `st.iteration + 1` as the source does
after `self.iteration += 1`. -/
def DegradingProfile.apply (st : PState) (d : Draws) : Sample :=
  let degradation_factor := DegradingProfile.degradation (st.iteration + 1)
  let temp : ℚ := 50 + degradation_factor * 30 + d.tempD
  let power : ℚ := 150 + degradation_factor * 100 + d.powerD
  let gpu_util : ℚ := 70 - degradation_factor * 30 + d.utilD
  let mem_util : ℚ := 60 - degradation_factor * 20 + d.memD
  let temp := pyInt (MetricProfile.clampQ temp 45 95)
  let power := pyInt (MetricProfile.clampQ power 100 350)
  let gpu_util := pyInt (MetricProfile.clampQ gpu_util 0 100)
  let mem_util := pyInt (MetricProfile.clampQ mem_util 0 100)
  let sm_clock := pyInt (1400 - degradation_factor * 300) + d.smD
  let mem_clock := pyInt (877 - degradation_factor * 100) + d.memcD
  let used_mem := 6144 + d.fbD
  let used_mem := MetricProfile.clamp used_mem 2048 14336
  { temp := temp, power := power, gpu_util := gpu_util, mem_util := mem_util,
    sm_clock := sm_clock, mem_clock := mem_clock, fb_used := used_mem }

/-- The state-update half of `FaultyProfile.apply` (lines 286-298):
iteration increment, Bernoulli(0.10) entry check (evaluated, thanks to
Python short-circuiting, only while not faulting), countdown decrement
and exit check. -/
def FaultyProfile.step (st : PState) (d : Draws) : PState :=
  let entered := !st.is_faulting && decide (d.u < 10 / 100)
  let is_faulting := st.is_faulting || entered
  let fault_countdown := if entered then d.cdraw else st.fault_countdown
  if is_faulting then
    let fault_countdown := fault_countdown - 1
    if fault_countdown ≤ 0 then
      { st with iteration := st.iteration + 1, is_faulting := false,
                fault_countdown := fault_countdown }
    else
      { st with iteration := st.iteration + 1, is_faulting := true,
                fault_countdown := fault_countdown }
  else
    { st with iteration := st.iteration + 1, is_faulting := is_faulting,
              fault_countdown := fault_countdown }

/-- The value-generation half of `FaultyProfile.apply` (lines 300-333),
branching on the post-update `is_faulting`. -/
def FaultyProfile.sample (gpu_id : ℤ) (is_faulting : Bool) (d : Draws) : Sample :=
  let temp := if is_faulting then 85 + d.tempD else 55 + (gpu_id - 1) * 4 + d.tempD
  let power := if is_faulting then d.pchoice else 170 + (gpu_id - 1) * 15 + d.powerD
  let gpu_util := if is_faulting then d.utilD else 60 + (gpu_id - 1) * 5 + d.utilD
  let mem_util := if is_faulting then d.memD else 55 + (gpu_id - 1) * 3 + d.memD
  let sm_clock := if is_faulting then 800 + d.smD else 1400 + d.smD
  let mem_clock := if is_faulting then 500 + d.memcD else 877 + d.memcD
  let used_mem := if is_faulting then 2048 + d.fbD else 7168 + (gpu_id - 1) * 512 + d.fbD
  let temp := MetricProfile.clamp temp 45 100
  let power := MetricProfile.clamp power 50 350
  let gpu_util := MetricProfile.clamp gpu_util 0 100
  let mem_util := MetricProfile.clamp mem_util 0 100
  let used_mem := MetricProfile.clamp used_mem 2048 14336
  { temp := temp, power := power, gpu_util := gpu_util, mem_util := mem_util,
    sm_clock := sm_clock, mem_clock := mem_clock, fb_used := used_mem }

/-- `FaultyProfile.apply`: state transition, then the sample generated
from the post-transition state. -/
def FaultyProfile.apply (gpu_id : ℤ) (st : PState) (d : Draws) : Sample × PState :=
  (FaultyProfile.sample gpu_id (FaultyProfile.step st d).is_faulting d,
   FaultyProfile.step st d)

/-- `ChaosProfile.apply` (lines 342-359): independent `random.randint`
draws over each field's full domain, no clamp calls. -/
def ChaosProfile.apply (d : Draws) : Sample :=
  { temp := d.tempD, power := d.powerD, gpu_util := d.utilD, mem_util := d.memD,
    sm_clock := d.smD, mem_clock := d.memcD, fb_used := d.fbD }

/-- The seven registered profile variants. -/
inductive ProfKind where
  | static | stable | spike | wave | degrading | faulty | chaos
  deriving DecidableEq, Repr

/-- Uniform per-tick dispatch over the seven `apply` implementations. -/
def applyK : ProfKind → ℤ → PState → Draws → Sample
  | .static, g, _, d => StaticProfile.apply g d
  | .stable, g, _, d => StableProfile.apply g d
  | .spike, g, _, d => SpikeProfile.apply g d
  | .wave, _, _, d => WaveProfile.apply d
  | .degrading, _, st, d => DegradingProfile.apply st d
  | .faulty, g, st, d => (FaultyProfile.apply g st d).1
  | .chaos, _, _, d => ChaosProfile.apply d

/-- The seven sample fields. -/
inductive MField where
  | temp | power | gpuUtil | memUtil | smClock | memClock | fbUsed
  deriving DecidableEq, Repr

/-- MField accessor on a sample. -/
def Sample.fieldVal (s : Sample) : MField → ℤ
  | .temp => s.temp
  | .power => s.power
  | .gpuUtil => s.gpu_util
  | .memUtil => s.mem_util
  | .smClock => s.sm_clock
  | .memClock => s.mem_clock
  | .fbUsed => s.fb_used

/-- The `_clamp` invocations each profile's `apply` makes, read off the
source: `some (lo, hi)` when the field's value is passed through
`self._clamp(·, lo, hi)` before being returned, `none` when no clamp is
applied to that field.  In every profile the `sm_clock` and `mem_clock`
values are returned without a clamp, and `ChaosProfile.apply` contains no
`_clamp` call at all. -/
def clampCalls : ProfKind → MField → Option (ℤ × ℤ)
  | .static, .temp => some (45, 85)
  | .static, .power => some (100, 300)
  | .static, .gpuUtil => some (0, 100)
  | .static, .memUtil => some (0, 100)
  | .static, .fbUsed => some (2048, 14336)
  | .static, _ => none
  | .stable, .temp => some (45, 90)
  | .stable, .power => some (100, 350)
  | .stable, .gpuUtil => some (0, 100)
  | .stable, .memUtil => some (0, 100)
  | .stable, .fbUsed => some (2048, 14336)
  | .stable, _ => none
  | .spike, .temp => some (45, 95)
  | .spike, .power => some (100, 350)
  | .spike, .gpuUtil => some (0, 100)
  | .spike, .memUtil => some (0, 100)
  | .spike, .fbUsed => some (2048, 14336)
  | .spike, _ => none
  | .wave, .temp => some (45, 90)
  | .wave, .power => some (100, 350)
  | .wave, .gpuUtil => some (0, 100)
  | .wave, .memUtil => some (0, 100)
  | .wave, .fbUsed => some (2048, 14336)
  | .wave, _ => none
  | .degrading, .temp => some (45, 95)
  | .degrading, .power => some (100, 350)
  | .degrading, .gpuUtil => some (0, 100)
  | .degrading, .memUtil => some (0, 100)
  | .degrading, .fbUsed => some (2048, 14336)
  | .degrading, _ => none
  | .faulty, .temp => some (45, 100)
  | .faulty, .power => some (50, 350)
  | .faulty, .gpuUtil => some (0, 100)
  | .faulty, .memUtil => some (0, 100)
  | .faulty, .fbUsed => some (2048, 14336)
  | .faulty, _ => none
  | .chaos, _ => none

/-- A sample satisfies every clamp that the profile's `apply` declares. -/
def inClampBounds (k : ProfKind) (s : Sample) : Prop :=
  ∀ f lo hi, clampCalls k f = some (lo, hi) → lo ≤ s.fieldVal f ∧ s.fieldVal f ≤ hi

/-- The Chaos profile's `random.randint` draws lie in their literal
ranges (lines 343-349). -/
def ChaosDrawsInRange (d : Draws) : Prop :=
  (45 ≤ d.tempD ∧ d.tempD ≤ 95) ∧ (100 ≤ d.powerD ∧ d.powerD ≤ 350) ∧
  (0 ≤ d.utilD ∧ d.utilD ≤ 100) ∧ (0 ≤ d.memD ∧ d.memD ≤ 100) ∧
  (800 ≤ d.smD ∧ d.smD ≤ 1800) ∧ (600 ≤ d.memcD ∧ d.memcD ≤ 1000) ∧
  (2048 ≤ d.fbD ∧ d.fbD ≤ 14336)

/-- A Chaos sample lies inside the full per-field domains it is drawn
from. -/
def chaosDomOk (s : Sample) : Prop :=
  (45 ≤ s.temp ∧ s.temp ≤ 95) ∧ (100 ≤ s.power ∧ s.power ≤ 350) ∧
  (0 ≤ s.gpu_util ∧ s.gpu_util ≤ 100) ∧ (0 ≤ s.mem_util ∧ s.mem_util ≤ 100) ∧
  (800 ≤ s.sm_clock ∧ s.sm_clock ≤ 1800) ∧ (600 ≤ s.mem_clock ∧ s.mem_clock ≤ 1000) ∧
  (2048 ≤ s.fb_used ∧ s.fb_used ≤ 14336)

/-- `ProfileFactory.PROFILES` (lines 365-373), in source order. -/
def ProfileFactory.PROFILES : List (String × ProfKind) :=
  [("static", .static), ("stable", .stable), ("spike", .spike), ("wave", .wave),
   ("degrading", .degrading), ("faulty", .faulty), ("chaos", .chaos)]

/-- Python `str.lower()` (ASCII case folding, which is all the registered
names exercise). -/
def pyLower (s : String) : String := String.mk (s.data.map Char.toLower)

/-- `ProfileFactory.create` (lines 376-382): dictionary lookup on the
lower-cased name; `none` logs a warning (the returned `Bool`) and falls
back to the Static profile.  The function is total: no code path raises. -/
def ProfileFactory.create (profile_name : String) : ProfKind × Bool :=
  match (ProfileFactory.PROFILES).lookup (pyLower profile_name) with
  | some profile_class => (profile_class, false)
  | none => (.static, true)

/-- The framebuffer triple injected per device by
`DCGMFakeManager.inject_metrics` (lines 740-748): total `16384`, used
from the profile sample, free `16384 - used`. -/
structure FbInjection where
  total : ℤ
  used : ℤ
  free : ℤ
  deriving DecidableEq, Repr

/-- `inject_metrics`' framebuffer injection for one device's sample. -/
def inject_fb (s : Sample) : FbInjection :=
  { total := 16384, used := s.fb_used, free := 16384 - s.fb_used }

/-! ## `dcgm_exporter.py`: parsing, rendering, cache update -/

/-- Python `line.startswith(p)` / substring-free prefix test, modelled on
the character list. -/
def pyStartswith (s p : String) : Bool := p.data.isPrefixOf s.data

/-- Python `str.split()` with no argument: split on whitespace runs,
discarding empty pieces. -/
def pySplitWS (s : String) : List String :=
  (s.split (fun c => c.isWhitespace)).filter (fun p => p ≠ "")

/-- Lexicographic comparison of character lists, the order Python's
`sorted` uses on strings. -/
def lexLe : List Char → List Char → Bool
  | [], _ => true
  | _ :: _, [] => false
  | a :: as, b :: bs => if a < b then true else if a = b then lexLe as bs else false

/-- `FIELD_MAPPING` from `dcgm_exporter.py` (lines 18-28):
field id → (metric name, help text), in source (dict insertion) order. -/
def FIELD_MAPPING : List (String × String × String) :=
  [("150", "DCGM_FI_DEV_GPU_TEMP", "GPU temperature in Celsius"),
   ("155", "DCGM_FI_DEV_POWER_USAGE", "Power usage in watts"),
   ("203", "DCGM_FI_DEV_GPU_UTIL", "GPU utilization percentage"),
   ("204", "DCGM_FI_DEV_MEM_COPY_UTIL", "Memory utilization percentage"),
   ("100", "DCGM_FI_DEV_SM_CLOCK", "SM clock in MHz"),
   ("101", "DCGM_FI_DEV_MEM_CLOCK", "Memory clock in MHz"),
   ("250", "DCGM_FI_DEV_FB_TOTAL", "Total framebuffer in MB"),
   ("251", "DCGM_FI_DEV_FB_FREE", "Free framebuffer in MB"),
   ("252", "DCGM_FI_DEV_FB_USED", "Used framebuffer in MB")]

/-- `list(FIELD_MAPPING.keys())` as used by `parse_dcgmi_output`. -/
def fieldIds : List String := FIELD_MAPPING.map (fun p => p.1)

/-- Python dict assignment `m[k] = v`: replace in place when the key
exists, append otherwise. -/
def dictInsert (m : List (String × ℚ)) (k : String) (v : ℚ) : List (String × ℚ) :=
  if (m.lookup k).isSome then
    m.map (fun kv => if kv.1 = k then (k, v) else kv)
  else m ++ [(k, v)]

/-- The inner loop of `parse_dcgmi_output` (lines 156-163): walk the raw
value tokens of one `GPU <id>` line with their positional index, skip the
sentinel `N/A`, parse with Python `float` (modelled by the parameter
`pf`, `none` = `ValueError`), and assign successfully parsed values to
the positionally matching field id.  A token that fails to parse is
simply skipped, leaving the rest of the line's fields untouched. -/
def parseValues (pf : String → Option ℚ) : List String → ℕ → List (String × ℚ) → List (String × ℚ)
  | [], _, m => m
  | val :: values, idx, m =>
    let m :=
      if h : idx < fieldIds.length then
        if val ≠ "N/A" then
          match pf val with
          | some x => dictInsert m (fieldIds.get ⟨idx, h⟩) x
          | none => m
        else m
      else m
    parseValues pf values (idx + 1) m

/-- The per-device field dict produced from one raw report line's value
tokens. -/
def lineFields (pf : String → Option ℚ) (values : List String) : List (String × ℚ) :=
  parseValues pf values 0 []

/-- Python dict assignment at the gpu level of `parse_dcgmi_output`. -/
def gpuInsert (ms : List (String × List (String × ℚ))) (g : String)
    (fs : List (String × ℚ)) : List (String × List (String × ℚ)) :=
  if (ms.lookup g).isSome then
    ms.map (fun kv => if kv.1 = g then (g, fs) else kv)
  else ms ++ [(g, fs)]

/-- `parse_dcgmi_output` (lines 142-164): split the raw report into
lines, keep the `GPU <id>` lines with at least two tokens, skip device
`0`, and build per-device field dicts from the remaining tokens.  (When
the same device id occurs on several lines the later line's fields are
merged over the earlier dict exactly as the source's repeated
`metrics[gpu_id][field_id] = ...` assignments do.) -/
def parse_dcgmi_output (pf : String → Option ℚ) (output : String) :
    List (String × List (String × ℚ)) :=
  let lines := (output.trim).splitOn "\n"
  lines.foldl
    (fun metrics line =>
      if pyStartswith line "GPU " then
        let parts := pySplitWS line
        if h : 2 ≤ parts.length then
          let gpu_id := parts.get ⟨1, by omega⟩
          if gpu_id = "0" then metrics
          else
            let values := parts.drop 2
            let prev := ((metrics.lookup gpu_id).getD [])
            gpuInsert metrics gpu_id (parseValues pf values 0 prev)
        else metrics
      else metrics)
    []

/-- The static per-device descriptor used for labels (`modelName`,
`UUID`, `pci_bus_id`). -/
structure GpuInfo where
  modelName : String
  uuid : String
  pci_bus_id : String

/-- The label set of one data line of `collect_metrics` (line 194). -/
def labelsFor (host : String) (info : List (String × GpuInfo)) (g : String) : String :=
  let i := info.lookup g
  let model_name := (i.map GpuInfo.modelName).getD "Unknown"
  let uuid := (i.map GpuInfo.uuid).getD "Unknown"
  let pci_bus_id := (i.map GpuInfo.pci_bus_id).getD "Unknown"
  "gpu=\x22" ++ g ++ "\x22,device=\x22nvidia" ++ g ++ "\x22,Hostname=\x22" ++ host ++
  "\x22,UUID=\x22" ++ uuid ++ "\x22,modelName=\x22" ++ model_name ++
  "\x22,pci_bus_id=\x22" ++ pci_bus_id ++ "\x22"

/-- The unsorted data lines of `collect_metrics` (lines 185-199): one
line per device/field pair whose field id is registered, `fmt` modelling
Python's float formatting `f\x22{value}\x22`. -/
def dataLines (fmt : ℚ → String) (host : String) (info : List (String × GpuInfo))
    (gm : List (String × List (String × ℚ))) : List String :=
  gm.flatMap (fun gf =>
    gf.2.flatMap (fun fv =>
      match FIELD_MAPPING.lookup fv.1 with
      | some nh => [nh.1 ++ "\x7b" ++ labelsFor host info gf.1 ++ "\x7d " ++ fmt fv.2]
      | none => []))

/-- The exposition header block (lines 200-203): one HELP and one TYPE
line for every registered field, in catalog order. -/
def headerLines : List String :=
  FIELD_MAPPING.flatMap (fun f =>
    ["# HELP " ++ f.2.1 ++ " " ++ f.2.2, "# TYPE " ++ f.2.1 ++ " gauge"])

/-- The line list of a successful render (lines 200-204): header block
followed by the data lines sorted as Python's `sorted` does. -/
def renderLines (fmt : ℚ → String) (host : String) (info : List (String × GpuInfo))
    (gm : List (String × List (String × ℚ))) : List String :=
  headerLines ++ (dataLines fmt host info gm).mergeSort (fun a b => lexLe a.data b.data)

/-- The outcome of the external `dcgmi dmon` call one tick observes. -/
inductive DmonResult where
  | run (returncode : ℤ) (stdout : String)
  | timeout
  | exc (msg : String)

/-- `collect_metrics` (lines 167-213) as a function of the external-call
outcome: non-zero exit, timeout and any other exception each yield a
single-line error-marker document; a zero exit renders the parsed
metrics joined with newlines plus a trailing newline. -/
def collect_metrics (pf : String → Option ℚ) (fmt : ℚ → String) (host : String)
    (info : List (String × GpuInfo)) : DmonResult → String
  | .run returncode stdout =>
    if returncode ≠ 0 then "# Error: dcgmi command failed\n"
    else
      String.intercalate "\n"
        (renderLines fmt host info (parse_dcgmi_output pf stdout)) ++ "\n"
  | .timeout => "# Error: dcgmi timeout\n"
  | .exc _ => "# Error: collection failed\n"

/-- One iteration of `update_metrics_cache` (lines 216-224): the cache is
replaced wholesale by the fresh tick's document; the previous cache value
is not consulted, so the next tick always retries from scratch. -/
def updateStep (pf : String → Option ℚ) (fmt : ℚ → String) (host : String)
    (info : List (String × GpuInfo)) (cache : String) (r : DmonResult) : String :=
  let _ := cache
  collect_metrics pf fmt host info r

/-! ## `dcgm_uds_server.py`: proxy response framing and retry policy -/

/-- The success-path byte stream of `handle_client` (lines 51-57):
status line, content-type header, content-length header, blank line,
body. -/
def successResponse (status_code : ℤ) (text : String) : String :=
  "HTTP/1.1 " ++ toString status_code ++ " OK\r\n" ++
  "Content-Type: text/plain; version=0.0.4\r\n" ++
  "Content-Length: " ++ toString text.length ++ "\r\n" ++
  "\r\n" ++ text

/-- The failure-path byte stream of `handle_client` (line 68): status
line, blank line, error body — with no content-type or content-length
header. -/
def errorResponse (e : String) : String :=
  "HTTP/1.1 500 Internal Server Error\r\n\r\nError: " ++ e ++ "\r\n"

/-- What one proxy attempt (`requests.get(METRICS_URL, timeout=5)`) can
produce: success, the two retryable exceptions, or any other error. -/
inductive Outcome where
  | ok | connErr | timeoutErr | otherErr
  deriving DecidableEq, Repr

/-- Result of running the retry loop: how many requests were issued, the
sleeps performed between attempts (in order), and the final outcome
(`ok`, or the exception that escaped the loop). -/
structure RunResult where
  attempts : ℕ
  sleeps : List ℚ
  outcome : Outcome
  deriving DecidableEq, Repr

/-- The backoff recurrence of `handle_client` (line 46):
`retry_delay = min(retry_delay * 1.5, 5.0)` iterated `k` times from `d`. -/
def backoffIter (d : ℚ) : ℕ → ℚ
  | 0 => d
  | k + 1 => backoffIter (min (d * (15 / 10)) 5) k

/-- The retry loop of `handle_client` (lines 36-48): `attempt` is the
loop index, `remaining` the attempts the `range` still allows, `delay`
the current `retry_delay`.  Success breaks out; a `ConnectionError` or
`Timeout` sleeps and retries unless this was the last attempt (in which
case it re-raises); any other exception propagates at once. -/
def retryGo (out : ℕ → Outcome) : ℕ → ℕ → ℚ → RunResult
  | _, 0, _ => ⟨0, [], .otherErr⟩
  | attempt, remaining + 1, delay =>
    match out attempt with
    | .ok => ⟨1, [], .ok⟩
    | .otherErr => ⟨1, [], .otherErr⟩
    | .connErr =>
      if remaining = 0 then ⟨1, [], .connErr⟩
      else
        let rest := retryGo out (attempt + 1) remaining (min (delay * (15 / 10)) 5)
        ⟨rest.attempts + 1, delay :: rest.sleeps, rest.outcome⟩
    | .timeoutErr =>
      if remaining = 0 then ⟨1, [], .timeoutErr⟩
      else
        let rest := retryGo out (attempt + 1) remaining (min (delay * (15 / 10)) 5)
        ⟨rest.attempts + 1, delay :: rest.sleeps, rest.outcome⟩

/-- The whole retry phase: `max_retries = 10`, `retry_delay = 0.5`. -/
def handleRetries (out : ℕ → Outcome) : RunResult :=
  retryGo out 0 10 (5 / 10)

/-- Substring test on character lists (used to state which headers a
response byte stream carries). -/
def hasSubstr (pat : List Char) : List Char → Bool
  | [] => pat.isEmpty
  | c :: cs => pat.isPrefixOf (c :: cs) || hasSubstr pat cs

/-- `n` further ticks of the Faulty state machine under a stream of
per-tick draws. -/
def iterSteps (ds : ℕ → Draws) (s : PState) : ℕ → PState
  | 0 => s
  | n + 1 => FaultyProfile.step (iterSteps ds s n) (ds n)

/-! ## Helper lemmas -/

theorem clamp_lb (v min_val max_val : ℤ) : min_val ≤ MetricProfile.clamp v min_val max_val :=
  le_max_left _ _

theorem clamp_ub (v min_val max_val : ℤ) (h : min_val ≤ max_val) :
    MetricProfile.clamp v min_val max_val ≤ max_val :=
  max_le h (min_le_left _ _)

theorem clampQ_lb (v min_val max_val : ℚ) : min_val ≤ MetricProfile.clampQ v min_val max_val :=
  le_max_left _ _

theorem clampQ_ub (v min_val max_val : ℚ) (h : min_val ≤ max_val) :
    MetricProfile.clampQ v min_val max_val ≤ max_val :=
  max_le h (min_le_left _ _)

theorem pyInt_lb (q : ℚ) (lo : ℤ) (h0 : 0 ≤ lo) (h : (lo : ℚ) ≤ q) : lo ≤ pyInt q := by
  have hq : ¬ q < 0 := not_lt.2 (le_trans (by exact_mod_cast h0) h)
  rw [pyInt, if_neg hq]
  exact Int.le_floor.2 h

theorem pyInt_ub (q : ℚ) (hi : ℤ) (h0 : 0 ≤ q) (h : q ≤ (hi : ℚ)) : pyInt q ≤ hi := by
  rw [pyInt, if_neg (not_lt.2 h0)]
  exact_mod_cast (Int.floor_le q).trans h

/-- Bounds for `int(self._clamp(x, lo, hi))` when `0 ≤ lo ≤ hi`. -/
theorem pyInt_clampQ_bounds (x : ℚ) (lo hi : ℤ) (h0 : 0 ≤ lo) (hlh : (lo : ℚ) ≤ (hi : ℚ)) :
    lo ≤ pyInt (MetricProfile.clampQ x lo hi) ∧ pyInt (MetricProfile.clampQ x lo hi) ≤ hi := by
  constructor
  · exact pyInt_lb _ _ h0 (clampQ_lb _ _ _)
  · refine pyInt_ub _ _ ?_ (clampQ_ub _ _ _ hlh)
    exact le_trans (by exact_mod_cast h0) (clampQ_lb _ _ _)

theorem static_inClampBounds (g : ℤ) (d : Draws) :
    inClampBounds .static (StaticProfile.apply g d) := by
  intro f lo hi h
  cases f <;> simp only [clampCalls, Option.some.injEq, Prod.mk.injEq,
    reduceCtorEq] at h <;> obtain ⟨rfl, rfl⟩ := h <;>
    exact ⟨clamp_lb _ _ _, clamp_ub _ _ _ (by norm_num)⟩

theorem stable_inClampBounds (g : ℤ) (d : Draws) :
    inClampBounds .stable (StableProfile.apply g d) := by
  intro f lo hi h
  cases f <;> simp only [clampCalls, Option.some.injEq, Prod.mk.injEq,
    reduceCtorEq] at h <;> obtain ⟨rfl, rfl⟩ := h <;>
    exact ⟨clamp_lb _ _ _, clamp_ub _ _ _ (by norm_num)⟩

theorem spike_inClampBounds (g : ℤ) (d : Draws) :
    inClampBounds .spike (SpikeProfile.apply g d) := by
  intro f lo hi h
  cases f <;> simp only [clampCalls, Option.some.injEq, Prod.mk.injEq,
    reduceCtorEq] at h <;> obtain ⟨rfl, rfl⟩ := h <;>
    exact ⟨clamp_lb _ _ _, clamp_ub _ _ _ (by norm_num)⟩

theorem wave_inClampBounds (d : Draws) :
    inClampBounds .wave (WaveProfile.apply d) := by
  intro f lo hi h
  cases f <;> simp only [clampCalls, Option.some.injEq, Prod.mk.injEq,
    reduceCtorEq] at h <;> obtain ⟨rfl, rfl⟩ := h <;>
    exact pyInt_clampQ_bounds _ _ _ (by norm_num) (by norm_num)

theorem degrading_inClampBounds (st : PState) (d : Draws) :
    inClampBounds .degrading (DegradingProfile.apply st d) := by
  intro f lo hi h
  cases f <;> simp only [clampCalls, Option.some.injEq, Prod.mk.injEq,
    reduceCtorEq] at h <;> obtain ⟨rfl, rfl⟩ := h <;>
    first
    | exact pyInt_clampQ_bounds _ _ _ (by norm_num) (by norm_num)
    | exact ⟨clamp_lb _ _ _, clamp_ub _ _ _ (by norm_num)⟩

theorem faulty_sample_inClampBounds (g : ℤ) (b : Bool) (d : Draws) :
    inClampBounds .faulty (FaultyProfile.sample g b d) := by
  intro f lo hi h
  cases f <;> simp only [clampCalls, Option.some.injEq, Prod.mk.injEq,
    reduceCtorEq] at h <;> obtain ⟨rfl, rfl⟩ := h <;>
    exact ⟨clamp_lb _ _ _, clamp_ub _ _ _ (by norm_num)⟩

theorem chaos_inClampBounds (d : Draws) :
    inClampBounds .chaos (ChaosProfile.apply d) := by
  intro f lo hi h
  cases f <;> simp only [clampCalls, reduceCtorEq] at h

/-- Every `_clamp` call a profile's `apply` makes is honoured by the
returned sample: the clamped fields lie inside the declared bounds. -/
theorem applyK_inClampBounds (k : ProfKind) (g : ℤ) (st : PState) (d : Draws) :
    inClampBounds k (applyK k g st d) := by
  cases k with
  | static => exact static_inClampBounds g d
  | stable => exact stable_inClampBounds g d
  | spike => exact spike_inClampBounds g d
  | wave => exact wave_inClampBounds d
  | degrading => exact degrading_inClampBounds st d
  | faulty => exact faulty_sample_inClampBounds g _ d
  | chaos => exact chaos_inClampBounds d

/-- The `fb_used` field of every profile's sample lies in
`[2048, 14336]` (for Chaos, given its draw lies in its literal
`randint(2048, 14336)` range). -/
theorem fb_used_bounds (k : ProfKind) (g : ℤ) (st : PState) (d : Draws)
    (hc : k = .chaos → ChaosDrawsInRange d) :
    2048 ≤ (applyK k g st d).fb_used ∧ (applyK k g st d).fb_used ≤ 14336 := by
  cases k with
  | chaos => exact (hc rfl).2.2.2.2.2.2
  | static => exact static_inClampBounds g d .fbUsed 2048 14336 rfl
  | stable => exact stable_inClampBounds g d .fbUsed 2048 14336 rfl
  | spike => exact spike_inClampBounds g d .fbUsed 2048 14336 rfl
  | wave => exact wave_inClampBounds d .fbUsed 2048 14336 rfl
  | degrading => exact degrading_inClampBounds st d .fbUsed 2048 14336 rfl
  | faulty => exact faulty_sample_inClampBounds g _ d .fbUsed 2048 14336 rfl

/-! ## Claim C9 — Degrading profile's degradation factor -/

/-- C9: the Degrading profile's degradation factor equals
`min(tick / 200, 0.5)` at every tick, is monotonically non-decreasing in
the tick count, and never exceeds `0.5`. -/
theorem degradation_formula_monotone_capped (t1 t2 : ℕ) (h : t1 ≤ t2) :
    DegradingProfile.degradation t2 = min ((t2 : ℚ) / 200) (5 / 10) ∧
    DegradingProfile.degradation t1 ≤ DegradingProfile.degradation t2 ∧
    DegradingProfile.degradation t2 ≤ 5 / 10 := by
  refine ⟨rfl, min_le_min ?_ le_rfl, min_le_right _ _⟩
  have h2 : (t1 : ℚ) ≤ (t2 : ℚ) := by exact_mod_cast h
  exact (div_le_div_iff_of_pos_right (by norm_num)).2 h2

/-- Witness for C9 at ticks 1 and 400. -/
theorem degradation_formula_monotone_capped_witness :
    DegradingProfile.degradation 1 ≤ DegradingProfile.degradation 400 ∧
    DegradingProfile.degradation 400 ≤ 5 / 10 := by
  have h := degradation_formula_monotone_capped 1 400 (by norm_num)
  exact ⟨h.2.1, h.2.2⟩

/-! ## Claim C8 — profile factory fallback -/

/-- C8: `ProfileFactory.create` maps any name whose lower-cased form is
registered to that variant, and any other name to the Static variant with
a warning; the seven registered names are exactly the source's
dictionary, and the function is total (no code path raises). -/
theorem create_registered_or_static_fallback (profile_name : String) :
    (∀ k, (ProfileFactory.PROFILES).lookup (pyLower profile_name) = some k →
      ProfileFactory.create profile_name = (k, false)) ∧
    ((ProfileFactory.PROFILES).lookup (pyLower profile_name) = none →
      ProfileFactory.create profile_name = (.static, true)) ∧
    (ProfileFactory.PROFILES).map Prod.fst =
      ["static", "stable", "spike", "wave", "degrading", "faulty", "chaos"] := by
  refine ⟨fun k h => ?_, fun h => ?_, rfl⟩ <;>
    simp [ProfileFactory.create, h]

/-- Witness for C8: a registered name in mixed case, and an unknown name
falling back to Static with a warning. -/
theorem create_registered_or_static_fallback_witness :
    ProfileFactory.create "FAULTY" = (.faulty, false) ∧
    ProfileFactory.create "bogus" = (.static, true) :=
  ⟨(create_registered_or_static_fallback "FAULTY").1 .faulty (by decide),
   (create_registered_or_static_fallback "bogus").2.1 (by decide)⟩

/-! ## Claim C10 — framebuffer accounting invariant -/

/-- C10: for every profile, device and tick, `inject_metrics` injects
`fb_total = 16384` and `fb_free = 16384 - fb_used`, so
`fb_used + fb_free = fb_total`; and since every profile keeps `fb_used`
in `[2048, 14336]`, the injected `fb_free` also lies in `[2048, 14336]`
and is never negative. -/
theorem inject_fb_accounting (k : ProfKind) (g : ℤ) (st : PState) (d : Draws)
    (hc : k = .chaos → ChaosDrawsInRange d) :
    (inject_fb (applyK k g st d)).total = 16384 ∧
    (inject_fb (applyK k g st d)).used + (inject_fb (applyK k g st d)).free =
      (inject_fb (applyK k g st d)).total ∧
    2048 ≤ (inject_fb (applyK k g st d)).used ∧
    (inject_fb (applyK k g st d)).used ≤ 14336 ∧
    2048 ≤ (inject_fb (applyK k g st d)).free ∧
    (inject_fb (applyK k g st d)).free ≤ 14336 := by
  have hb := fb_used_bounds k g st d hc
  simp only [inject_fb]
  refine ⟨trivial, by omega, hb.1, hb.2, by omega, by omega⟩

/-- Witness for C10 on the Chaos profile with concrete in-range draws. -/
theorem inject_fb_accounting_witness :
    2048 ≤ (inject_fb (applyK .chaos 1 {}
      { tempD := 50, powerD := 200, utilD := 50, memD := 50,
        smD := 1000, memcD := 800, fbD := 10000 })).free ∧
    (inject_fb (applyK .chaos 1 {}
      { tempD := 50, powerD := 200, utilD := 50, memD := 50,
        smD := 1000, memcD := 800, fbD := 10000 })).used +
      (inject_fb (applyK .chaos 1 {}
        { tempD := 50, powerD := 200, utilD := 50, memD := 50,
          smD := 1000, memcD := 800, fbD := 10000 })).free =
      (inject_fb (applyK .chaos 1 {}
        { tempD := 50, powerD := 200, utilD := 50, memD := 50,
          smD := 1000, memcD := 800, fbD := 10000 })).total := by
  have h := inject_fb_accounting .chaos 1 {}
    { tempD := 50, powerD := 200, utilD := 50, memD := 50,
      smD := 1000, memcD := 800, fbD := 10000 }
    (fun _ => by unfold ChaosDrawsInRange; decide)
  exact ⟨h.2.2.2.2.1, h.2.1⟩

/-! ## Claim C3 — UDS error-path response framing -/

/-- C3 counterexample: the 500-status response written on failure does
not carry the content-type and content-length headers of the success
path, so it does not use the same framing; the success response does
carry them. -/
theorem error_response_not_success_framing :
    hasSubstr "Content-Length".data (errorResponse "boom").data = false ∧
    hasSubstr "Content-Type".data (errorResponse "boom").data = false ∧
    hasSubstr "Content-Length".data (successResponse 200 "x").data = true ∧
    hasSubstr "Content-Type".data (successResponse 200 "x").data = true := by
  decide

/-- C3 (amended): on failure the handler writes a 500-status response
consisting of the status line, an immediately following blank line (no
content-type or content-length header) and an `Error: <description>`
body, then closes; the success path's framing has the two headers
between the status line and the blank line. -/
theorem error_response_framing (e : String) (status_code : ℤ) (text : String) :
    errorResponse e =
      "HTTP/1.1 500 Internal Server Error" ++ "\r\n\r\n" ++ "Error: " ++ e ++ "\r\n" ∧
    hasSubstr "Content-Length".data
      ("HTTP/1.1 500 Internal Server Error" ++ "\r\n\r\n" ++ "Error: ").data = false ∧
    hasSubstr "Content-Type".data
      ("HTTP/1.1 500 Internal Server Error" ++ "\r\n\r\n" ++ "Error: ").data = false ∧
    successResponse status_code text =
      "HTTP/1.1 " ++ toString status_code ++ " OK\r\n" ++
        "Content-Type: text/plain; version=0.0.4\r\n" ++
        "Content-Length: " ++ toString text.length ++ "\r\n" ++ "\r\n" ++ text :=
  ⟨rfl, by decide, by decide, rfl⟩

/-! ## Claim C6 — transient collection failures -/

/-- C6: on external-call timeout or non-zero exit (and on any other
collection exception) the tick aborts and the document produced is a
single-line textual error marker; the cache-update step is total and
ignores the previous cache value, so the next tick retries
unconditionally regardless of earlier failures. -/
theorem transient_failure_error_markers (pf : String → Option ℚ) (fmt : ℚ → String)
    (host : String) (info : List (String × GpuInfo)) :
    (collect_metrics pf fmt host info .timeout = "# Error: dcgmi timeout\n" ∧
      "# Error: dcgmi timeout\n".data.count '\n' = 1) ∧
    (∀ returncode stdout, returncode ≠ 0 →
      collect_metrics pf fmt host info (.run returncode stdout) =
        "# Error: dcgmi command failed\n") ∧
    "# Error: dcgmi command failed\n".data.count '\n' = 1 ∧
    (∀ msg, collect_metrics pf fmt host info (.exc msg) = "# Error: collection failed\n" ∧
      "# Error: collection failed\n".data.count '\n' = 1) ∧
    (∀ cache1 cache2 r, updateStep pf fmt host info cache1 r =
      updateStep pf fmt host info cache2 r) := by
  refine ⟨⟨rfl, by decide⟩, fun rc out h => ?_, by decide,
    fun msg => ⟨rfl, by decide⟩, fun c1 c2 r => rfl⟩
  simp [collect_metrics, h]

/-- Witness for C6 at a concrete non-zero exit code. -/
theorem transient_failure_error_markers_witness :
    collect_metrics (fun _ => none) (fun _ => "") "" [] (.run 1 "") =
      "# Error: dcgmi command failed\n" :=
  (transient_failure_error_markers (fun _ => none) (fun _ => "") "" []).2.1 1 ""
    (by norm_num)

/-! ## Claim C5 — bounded retry with exponential backoff -/

theorem backoffIter_min_closed (d : ℚ) (h : 0 ≤ d) :
    ∀ k, backoffIter (min d 5) k = min (d * (15 / 10) ^ k) 5 := by
  intro k
  induction k generalizing d with
  | zero => simp [backoffIter]
  | succ k ih =>
    have hstep : min (min d 5 * (15 / 10)) 5 = min (d * (15 / 10)) 5 := by
      rw [min_mul_of_nonneg _ _ (by norm_num : (0 : ℚ) ≤ 15 / 10)]
      rw [min_assoc]
      norm_num
    have hd : (0 : ℚ) ≤ d * (15 / 10) := by positivity
    calc backoffIter (min d 5) (k + 1)
        = backoffIter (min (min d 5 * (15 / 10)) 5) k := rfl
      _ = backoffIter (min (d * (15 / 10)) 5) k := by rw [hstep]
      _ = min (d * (15 / 10) * (15 / 10) ^ k) 5 := ih _ hd
      _ = min (d * (15 / 10) ^ (k + 1)) 5 := by ring_nf

theorem retryGo_spec (out : ℕ → Outcome) :
    ∀ (remaining attempt : ℕ) (delay : ℚ), 1 ≤ remaining →
    1 ≤ (retryGo out attempt remaining delay).attempts ∧
    (retryGo out attempt remaining delay).attempts ≤ remaining ∧
    (retryGo out attempt remaining delay).sleeps.length =
      (retryGo out attempt remaining delay).attempts - 1 ∧
    (∀ k, (hk : k < (retryGo out attempt remaining delay).sleeps.length) →
      (retryGo out attempt remaining delay).sleeps.get ⟨k, hk⟩ = backoffIter delay k) ∧
    (∀ j, j + 1 < (retryGo out attempt remaining delay).attempts →
      out (attempt + j) = .connErr ∨ out (attempt + j) = .timeoutErr) ∧
    (retryGo out attempt remaining delay).outcome =
      out (attempt + ((retryGo out attempt remaining delay).attempts - 1)) ∧
    (∀ j, j < (retryGo out attempt remaining delay).attempts →
      out (attempt + j) = .otherErr →
      (retryGo out attempt remaining delay).attempts = j + 1) := by
  intro remaining
  induction remaining with
  | zero => intro _ _ h; omega
  | succ r ih =>
    intro attempt delay _
    by_cases hr : r = 0
    · subst hr
      rcases hout : out attempt with _ | _ | _ | _
      · have hs : retryGo out attempt 1 delay = ⟨1, [], .ok⟩ := by
          rw [retryGo, hout]
        rw [hs]
        dsimp only
        exact ⟨le_rfl, by omega, rfl, fun k hk => absurd hk (by simp),
          fun j hj => absurd hj (by omega), by simpa using hout.symm,
          fun j hj _ => by omega⟩
      · have hs : retryGo out attempt 1 delay = ⟨1, [], .connErr⟩ := by
          rw [retryGo, hout]; simp
        rw [hs]
        dsimp only
        exact ⟨le_rfl, by omega, rfl, fun k hk => absurd hk (by simp),
          fun j hj => absurd hj (by omega), by simpa using hout.symm,
          fun j hj _ => by omega⟩
      · have hs : retryGo out attempt 1 delay = ⟨1, [], .timeoutErr⟩ := by
          rw [retryGo, hout]; simp
        rw [hs]
        dsimp only
        exact ⟨le_rfl, by omega, rfl, fun k hk => absurd hk (by simp),
          fun j hj => absurd hj (by omega), by simpa using hout.symm,
          fun j hj _ => by omega⟩
      · have hs : retryGo out attempt 1 delay = ⟨1, [], .otherErr⟩ := by
          rw [retryGo, hout]
        rw [hs]
        dsimp only
        exact ⟨le_rfl, by omega, rfl, fun k hk => absurd hk (by simp),
          fun j hj => absurd hj (by omega), by simpa using hout.symm,
          fun j hj _ => by omega⟩
    · have hr1 : 1 ≤ r := by omega
      rcases hout : out attempt with _ | _ | _ | _
      · have hs : retryGo out attempt (r + 1) delay = ⟨1, [], .ok⟩ := by
          rw [retryGo, hout]
        rw [hs]
        dsimp only
        exact ⟨le_rfl, by omega, rfl, fun k hk => absurd hk (by simp),
          fun j hj => absurd hj (by omega), by simpa using hout.symm,
          fun j hj _ => by omega⟩
      · have hs : retryGo out attempt (r + 1) delay =
            ⟨(retryGo out (attempt + 1) r (min (delay * (15 / 10)) 5)).attempts + 1,
             delay :: (retryGo out (attempt + 1) r (min (delay * (15 / 10)) 5)).sleeps,
             (retryGo out (attempt + 1) r (min (delay * (15 / 10)) 5)).outcome⟩ := by
          rw [retryGo, hout]; simp [hr]
        obtain ⟨i1, i2, i3, i4, i5, i6, i7⟩ := ih (attempt + 1) (min (delay * (15 / 10)) 5) hr1
        rw [hs]
        dsimp only
        refine ⟨by omega, by omega, by simp only [List.length_cons]; omega, ?_, ?_, ?_, ?_⟩
        · intro k hk
          match k with
          | 0 => rfl
          | k + 1 =>
            simp only [List.length_cons] at hk
            exact i4 k (by omega)
        · intro j hj
          match j with
          | 0 => exact Or.inl hout
          | j + 1 =>
            have := i5 j (by omega)
            simpa [Nat.add_assoc, Nat.add_comm 1 j] using this
        · rw [i6]
          congr 1
          omega
        · intro j hj hje
          match j with
          | 0 =>
            rw [Nat.add_zero, hout] at hje
            cases hje
          | j + 1 =>
            have := i7 j (by omega)
              (by simpa [Nat.add_assoc, Nat.add_comm 1 j] using hje)
            omega
      · have hs : retryGo out attempt (r + 1) delay =
            ⟨(retryGo out (attempt + 1) r (min (delay * (15 / 10)) 5)).attempts + 1,
             delay :: (retryGo out (attempt + 1) r (min (delay * (15 / 10)) 5)).sleeps,
             (retryGo out (attempt + 1) r (min (delay * (15 / 10)) 5)).outcome⟩ := by
          rw [retryGo, hout]; simp [hr]
        obtain ⟨i1, i2, i3, i4, i5, i6, i7⟩ := ih (attempt + 1) (min (delay * (15 / 10)) 5) hr1
        rw [hs]
        dsimp only
        refine ⟨by omega, by omega, by simp only [List.length_cons]; omega, ?_, ?_, ?_, ?_⟩
        · intro k hk
          match k with
          | 0 => rfl
          | k + 1 =>
            simp only [List.length_cons] at hk
            exact i4 k (by omega)
        · intro j hj
          match j with
          | 0 => exact Or.inr hout
          | j + 1 =>
            have := i5 j (by omega)
            simpa [Nat.add_assoc, Nat.add_comm 1 j] using this
        · rw [i6]
          congr 1
          omega
        · intro j hj hje
          match j with
          | 0 =>
            rw [Nat.add_zero, hout] at hje
            cases hje
          | j + 1 =>
            have := i7 j (by omega)
              (by simpa [Nat.add_assoc, Nat.add_comm 1 j] using hje)
            omega
      · have hs : retryGo out attempt (r + 1) delay = ⟨1, [], .otherErr⟩ := by
          rw [retryGo, hout]
        rw [hs]
        dsimp only
        exact ⟨le_rfl, by omega, rfl, fun k hk => absurd hk (by simp),
          fun j hj => absurd hj (by omega), by simpa using hout.symm,
          fun j hj _ => by omega⟩

/-- C5: each UDS handler's proxy request uses bounded retry — at most 10
attempts; the sleep before retry number `k + 1` equals
`min(0.5 * 1.5 ^ k, 5)` (exponential backoff from 0.5 s capped at 5 s);
a further attempt is made only when the previous one raised
connection-refused or timeout; and any other exception aborts the loop at
that attempt with no retry.  The final outcome is that of the last
attempt issued. -/
theorem retry_policy_bounded_backoff (out : ℕ → Outcome) :
    1 ≤ (handleRetries out).attempts ∧ (handleRetries out).attempts ≤ 10 ∧
    (handleRetries out).sleeps.length = (handleRetries out).attempts - 1 ∧
    (∀ k, (hk : k < (handleRetries out).sleeps.length) →
      (handleRetries out).sleeps.get ⟨k, hk⟩ = min ((5 / 10) * (15 / 10) ^ k) 5) ∧
    (∀ j, j + 1 < (handleRetries out).attempts →
      out j = .connErr ∨ out j = .timeoutErr) ∧
    (handleRetries out).outcome = out ((handleRetries out).attempts - 1) ∧
    (∀ j, j < (handleRetries out).attempts → out j = .otherErr →
      (handleRetries out).attempts = j + 1) := by
  obtain ⟨i1, i2, i3, i4, i5, i6, i7⟩ := retryGo_spec out 10 0 (5 / 10) (by norm_num)
  have hb : ∀ k, backoffIter (5 / 10) k = min ((5 / 10) * (15 / 10) ^ k) 5 := by
    intro k
    have h := backoffIter_min_closed (5 / 10) (by norm_num) k
    rw [show min ((5 : ℚ) / 10) 5 = 5 / 10 from by norm_num] at h
    exact h
  refine ⟨i1, i2, i3, fun k hk => (i4 k hk).trans (hb k), fun j hj => ?_, ?_, fun j hj hje => ?_⟩
  · simpa using i5 j hj
  · simpa using i6
  · exact i7 j hj (by simpa using hje)

/-- Witness for C5: a permanently connection-refused front end consumes
all 10 attempts, the first backoff sleep is 0.5 s, and the retry-guard
hypothesis is discharged at attempt 0. -/
theorem retry_policy_bounded_backoff_witness :
    (handleRetries (fun _ => Outcome.connErr)).attempts ≤ 10 ∧
    ((fun _ => Outcome.connErr) 0 = Outcome.connErr ∨
      (fun _ => Outcome.connErr) 0 = Outcome.timeoutErr) ∧
    (handleRetries (fun _ => Outcome.connErr)).outcome = Outcome.connErr := by
  have h := retry_policy_bounded_backoff (fun _ => Outcome.connErr)
  exact ⟨h.2.1, h.2.2.2.2.1 0 (by decide), h.2.2.2.2.2.1⟩

/-! ## Claim C2 — Faulty profile state machine -/

theorem faulty_step_enter (s0 : PState) (d0 : Draws) (h0 : s0.is_faulting = false)
    (hu : d0.u < 10 / 100) (hC : 3 ≤ d0.cdraw) :
    FaultyProfile.step s0 d0 =
      { s0 with iteration := s0.iteration + 1, is_faulting := true,
                fault_countdown := d0.cdraw - 1 } := by
  unfold FaultyProfile.step
  rw [h0]
  simp only [Bool.not_false, Bool.true_and, decide_eq_true_eq, hu, if_pos,
    Bool.false_or, if_true]
  rw [if_neg (by omega)]

theorem faulty_step_active (st : PState) (d : Draws) (h : st.is_faulting = true) :
    FaultyProfile.step st d =
      (if st.fault_countdown - 1 ≤ 0 then
        { st with iteration := st.iteration + 1, is_faulting := false,
                  fault_countdown := st.fault_countdown - 1 }
      else
        { st with iteration := st.iteration + 1, is_faulting := true,
                  fault_countdown := st.fault_countdown - 1 }) := by
  unfold FaultyProfile.step
  rw [h]
  simp only [Bool.not_true, Bool.false_and, Bool.true_or, if_true, Bool.false_eq_true,
    if_false]

theorem faulty_countdown_run (ds : ℕ → Draws) :
    ∀ (j : ℕ) (s : PState), s.is_faulting = true → (j : ℤ) < s.fault_countdown →
      (iterSteps ds s j).is_faulting = true ∧
      (iterSteps ds s j).fault_countdown = s.fault_countdown - j := by
  intro j
  induction j with
  | zero => exact fun s h _ => ⟨h, by simp [iterSteps]⟩
  | succ j ih =>
    intro s h hc
    obtain ⟨h1, h2⟩ := ih s h (by push_cast at hc ⊢; omega)
    have hgt : ¬ ((iterSteps ds s j).fault_countdown - 1 ≤ 0) := by
      rw [h2]; push_cast at hc ⊢; omega
    rw [show iterSteps ds s (j + 1) = FaultyProfile.step (iterSteps ds s j) (ds j) from rfl,
        faulty_step_active _ _ h1, if_neg hgt]
    refine ⟨rfl, ?_⟩
    simp only []
    rw [h2]
    push_cast
    ring

/-- C2 counterexample: starting inactive, the entry check fires at tick 1
with countdown draw `C = 3` (so `faultActive` goes false → true with
`C ∈ [3, 10]`), yet `is_faulting` is already false again two ticks after
the entry tick — not after the `C = 3` further ticks the claim asserts —
because the entry tick itself also decrements the countdown and each
later tick decrements it again, exiting as soon as it reaches 0. -/
theorem faulty_duration_counterexample :
    ({} : PState).is_faulting = false ∧
    (3 : ℤ) ≤ ({ u := 0, cdraw := 3 } : Draws).cdraw ∧
    ({ u := 0, cdraw := 3 } : Draws).cdraw ≤ 10 ∧
    (FaultyProfile.step {} { u := 0, cdraw := 3 }).is_faulting = true ∧
    (iterSteps (fun _ => { u := 1 })
      (FaultyProfile.step {} { u := 0, cdraw := 3 }) 1).is_faulting = true ∧
    (iterSteps (fun _ => { u := 1 })
      (FaultyProfile.step {} { u := 0, cdraw := 3 }) 2).is_faulting = false := by
  have h1 : FaultyProfile.step {} { u := 0, cdraw := 3 } =
      { iteration := 1, is_faulting := true, fault_countdown := 2 } := by
    rw [faulty_step_enter {} { u := 0, cdraw := 3 } rfl (by norm_num) (by norm_num)]
    simp
  have h2 : FaultyProfile.step
      ({ iteration := 1, is_faulting := true, fault_countdown := 2 } : PState)
      ({ u := 1 } : Draws) =
      { iteration := 2, is_faulting := true, fault_countdown := 1 } := by
    rw [faulty_step_active _ _ rfl, if_neg (by norm_num)]
    simp
  have h3 : FaultyProfile.step
      ({ iteration := 2, is_faulting := true, fault_countdown := 1 } : PState)
      ({ u := 1 } : Draws) =
      { iteration := 3, is_faulting := false, fault_countdown := 0 } := by
    rw [faulty_step_active _ _ rfl, if_pos (by norm_num)]
    simp
  refine ⟨rfl, by norm_num, by norm_num, by rw [h1], ?_, ?_⟩
  · show (FaultyProfile.step
      (FaultyProfile.step {} { u := 0, cdraw := 3 }) { u := 1 }).is_faulting = true
    rw [h1, h2]
  · show (FaultyProfile.step (FaultyProfile.step
      (FaultyProfile.step {} { u := 0, cdraw := 3 }) { u := 1 })
      { u := 1 }).is_faulting = false
    rw [h1, h2, h3]

/-- C2 (amended): when the entry check fires on a tick with countdown
draw `C ∈ [3, 10]`, `is_faulting` becomes true and — because that same
tick already decrements the countdown to `C - 1` and every later tick
decrements it again, exiting at 0 — it stays true for exactly `C - 2`
further ticks after the entry tick and is false again on the
`(C - 1)`-th tick after entry.  The Bernoulli(0.10) entry check is
evaluated only on ticks that start inactive: while `is_faulting` is
true, the tick's result is independent of the entry draw. -/
theorem faulty_state_machine_duration (s0 : PState) (d0 : Draws) (ds : ℕ → Draws)
    (C : ℕ) (h0 : s0.is_faulting = false) (hu : d0.u < 10 / 100)
    (hC : d0.cdraw = (C : ℤ)) (h3 : 3 ≤ C) (h10 : C ≤ 10) :
    ((FaultyProfile.step s0 d0).is_faulting = true ∧
     (∀ j, j ≤ C - 2 →
       (iterSteps ds (FaultyProfile.step s0 d0) j).is_faulting = true) ∧
     (iterSteps ds (FaultyProfile.step s0 d0) (C - 1)).is_faulting = false) ∧
    (∀ (g : ℤ) (s : PState) (d : Draws) (v : ℚ), s.is_faulting = true →
      FaultyProfile.apply g s { d with u := v } = FaultyProfile.apply g s d) := by
  have hstep := faulty_step_enter s0 d0 h0 hu (by omega)
  have hcd : (FaultyProfile.step s0 d0).fault_countdown = (C : ℤ) - 1 := by
    rw [hstep]; simp [hC]
  have hf : (FaultyProfile.step s0 d0).is_faulting = true := by rw [hstep]
  refine ⟨⟨hf, fun j hj => ?_, ?_⟩, fun g s d v hs => ?_⟩
  · exact (faulty_countdown_run ds j _ hf (by rw [hcd]; push_cast; omega)).1
  · have hsplit : C - 1 = (C - 2) + 1 := by omega
    obtain ⟨hf2, hc2⟩ := faulty_countdown_run ds (C - 2) _ hf (by rw [hcd]; push_cast; omega)
    have hone : (iterSteps ds (FaultyProfile.step s0 d0) (C - 2)).fault_countdown = 1 := by
      rw [hc2, hcd]; push_cast; omega
    rw [hsplit,
        show iterSteps ds (FaultyProfile.step s0 d0) ((C - 2) + 1) =
          FaultyProfile.step (iterSteps ds (FaultyProfile.step s0 d0) (C - 2))
            (ds (C - 2)) from rfl,
        faulty_step_active _ _ hf2, if_pos (by rw [hone]; omega)]
  · unfold FaultyProfile.apply FaultyProfile.step FaultyProfile.sample
    rw [hs]
    rfl

/-- Witness for C2 (amended) at `C = 3`. -/
theorem faulty_state_machine_duration_witness :
    (iterSteps (fun _ => { u := 1 })
      (FaultyProfile.step {} { u := 0, cdraw := 3 }) 1).is_faulting = true ∧
    (iterSteps (fun _ => { u := 1 })
      (FaultyProfile.step {} { u := 0, cdraw := 3 }) 2).is_faulting = false := by
  have h := faulty_state_machine_duration {} { u := 0, cdraw := 3 }
    (fun _ => { u := 1 }) 3 rfl (by norm_num) rfl (by norm_num) (by norm_num)
  exact ⟨h.1.2.1 1 (by norm_num), h.1.2.2⟩

/-! ## Claim C1 — clamping of profile sample fields -/

/-- C1 counterexample: no profile's `apply` passes the SM-clock or
memory-clock value through `_clamp` (and `ChaosProfile.apply` contains no
clamp at all), so the clamp-and-round step is not applied to every field.
Concretely, a faulting tick of the Faulty profile with SM-clock draw
`-200` emits `sm_clock = 600`, below even the full `[800, 1800]` domain
the Chaos profile draws the SM clock from — no declared domain bounds
these fields. -/
theorem clamp_not_applied_to_clocks :
    clampCalls .faulty .smClock = none ∧
    clampCalls .faulty .memClock = none ∧
    clampCalls .static .smClock = none ∧
    clampCalls .chaos .temp = none ∧
    (applyK .faulty 1 { iteration := 0, is_faulting := true, fault_countdown := 5 }
      { smD := -200, u := 1 }).sm_clock = 600 ∧
    ¬ (800 ≤ (applyK .faulty 1
      { iteration := 0, is_faulting := true, fault_countdown := 5 }
      { smD := -200, u := 1 }).sm_clock) := by
  have hstep : FaultyProfile.step
      ({ iteration := 0, is_faulting := true, fault_countdown := 5 } : PState)
      ({ smD := -200, u := 1 } : Draws) =
      { iteration := 1, is_faulting := true, fault_countdown := 4 } := by
    rw [faulty_step_active _ _ rfl, if_neg (by norm_num)]
    simp
  have happ : (applyK .faulty 1
      { iteration := 0, is_faulting := true, fault_countdown := 5 }
      { smD := -200, u := 1 }).sm_clock = 600 := by
    show (FaultyProfile.sample 1 (FaultyProfile.step _ _).is_faulting _).sm_clock = 600
    rw [hstep]
    rfl
  exact ⟨rfl, rfl, rfl, rfl, happ, by rw [happ]; norm_num⟩

/-- C1 (amended): for every profile variant, device id, state and tick,
every field that the profile's `apply` does pass through `_clamp` — the
temperature, power, GPU-utilization, memory-utilization and
framebuffer-used fields of the six non-Chaos profiles — lies within that
clamp's declared bounds (with the Wave/Degrading float fields rounded to
integers inside those bounds); the SM-clock and memory-clock fields are
emitted without any clamp, and the Chaos profile instead draws every
field directly from its full domain, within which its sample then lies. -/
theorem clamped_fields_in_declared_bounds (k : ProfKind) (g : ℤ) (st : PState)
    (d : Draws) (hc : k = .chaos → ChaosDrawsInRange d) :
    inClampBounds k (applyK k g st d) ∧
    (k = .chaos → chaosDomOk (applyK k g st d)) := by
  refine ⟨applyK_inClampBounds k g st d, fun hk => ?_⟩
  subst hk
  exact hc rfl

/-- Witness for C1 (amended) on the Chaos profile with concrete in-range
draws. -/
theorem clamped_fields_in_declared_bounds_witness :
    inClampBounds .chaos (applyK .chaos 1 {}
      { tempD := 60, powerD := 250, utilD := 40, memD := 40,
        smD := 1200, memcD := 700, fbD := 8000 }) ∧
    chaosDomOk (applyK .chaos 1 {}
      { tempD := 60, powerD := 250, utilD := 40, memD := 40,
        smD := 1200, memcD := 700, fbD := 8000 }) := by
  have h := clamped_fields_in_declared_bounds .chaos 1 {}
    { tempD := 60, powerD := 250, utilD := 40, memD := 40,
      smD := 1200, memcD := 700, fbD := 8000 }
    (fun _ => by unfold ChaosDrawsInRange; decide)
  exact ⟨h.1, h.2 rfl⟩

/-! ## Claim C7 — per-field parse failures are isolated -/

theorem lookup_cons_self (k : String) (b : ℚ) (t : List (String × ℚ)) :
    List.lookup k ((k, b) :: t) = some b := by
  simp [List.lookup]

theorem lookup_cons_ne (k a : String) (b : ℚ) (t : List (String × ℚ)) (h : k ≠ a) :
    List.lookup k ((a, b) :: t) = List.lookup k t := by
  rw [List.lookup, show (k == a) = false from beq_eq_false_iff_ne.mpr h]

theorem lookup_map_replace (k : String) (v : ℚ) :
    ∀ (m : List (String × ℚ)), (m.lookup k).isSome →
    (m.map (fun kv => if kv.1 = k then (k, v) else kv)).lookup k = some v := by
  intro m
  induction m with
  | nil => intro hk; simp [List.lookup] at hk
  | cons a t ih =>
    intro hk
    obtain ⟨a1, a2⟩ := a
    by_cases h : a1 = k
    · subst h
      simp [lookup_cons_self]
    · rw [List.map_cons, if_neg h, lookup_cons_ne k a1 a2 _ (Ne.symm h)]
      rw [lookup_cons_ne k a1 a2 t (Ne.symm h)] at hk
      exact ih hk

theorem lookup_append_last (k : String) (v : ℚ) :
    ∀ (m : List (String × ℚ)), ¬ (m.lookup k).isSome →
    (m ++ [(k, v)]).lookup k = some v := by
  intro m
  induction m with
  | nil => simp [lookup_cons_self]
  | cons a t ih =>
    intro hk
    obtain ⟨a1, a2⟩ := a
    by_cases h : a1 = k
    · exact absurd (by subst h; simp [lookup_cons_self]) hk
    · rw [List.cons_append, lookup_cons_ne k a1 a2 _ (Ne.symm h)]
      rw [lookup_cons_ne k a1 a2 t (Ne.symm h)] at hk
      exact ih hk

theorem lookup_dictInsert_self (m : List (String × ℚ)) (k : String) (v : ℚ) :
    (dictInsert m k v).lookup k = some v := by
  unfold dictInsert
  split
  · exact lookup_map_replace k v m (by assumption)
  · exact lookup_append_last k v m (by assumption)

theorem lookup_map_replace_ne (k k' : String) (v : ℚ) (hne : k' ≠ k) :
    ∀ (m : List (String × ℚ)),
    (m.map (fun kv => if kv.1 = k then (k, v) else kv)).lookup k' = m.lookup k' := by
  intro m
  induction m with
  | nil => rfl
  | cons a t ih =>
    obtain ⟨a1, a2⟩ := a
    by_cases h : a1 = k
    · subst h
      rw [List.map_cons, if_pos rfl, lookup_cons_ne k' a1 v _ hne,
          lookup_cons_ne k' a1 a2 t hne]
      exact ih
    · rw [List.map_cons, if_neg h]
      by_cases h2 : k' = a1
      · subst h2; rw [lookup_cons_self, lookup_cons_self]
      · rw [lookup_cons_ne k' a1 a2 _ h2, lookup_cons_ne k' a1 a2 t h2]
        exact ih

theorem lookup_append_ne (k k' : String) (v : ℚ) (hne : k' ≠ k) :
    ∀ (m : List (String × ℚ)), (m ++ [(k, v)]).lookup k' = m.lookup k' := by
  intro m
  induction m with
  | nil => rw [List.nil_append, lookup_cons_ne k' k v [] hne]
  | cons a t ih =>
    obtain ⟨a1, a2⟩ := a
    by_cases h2 : k' = a1
    · subst h2; rw [List.cons_append, lookup_cons_self, lookup_cons_self]
    · rw [List.cons_append, lookup_cons_ne k' a1 a2 _ h2, lookup_cons_ne k' a1 a2 t h2]
      exact ih

theorem lookup_dictInsert_ne (m : List (String × ℚ)) (k k' : String) (v : ℚ)
    (hne : k' ≠ k) : (dictInsert m k v).lookup k' = m.lookup k' := by
  unfold dictInsert
  split
  · exact lookup_map_replace_ne k k' v hne m
  · exact lookup_append_ne k k' v hne m

theorem fieldIds_nodup : fieldIds.Nodup := by decide

/-- Distinct positions of the registered field-id list carry distinct
ids. -/
theorem fieldIds_getElem_ne (i j : ℕ) (fid : String) (hne : i ≠ j)
    (hj : j < fieldIds.length) (hi : fieldIds[i]? = some fid) :
    fieldIds.get ⟨j, hj⟩ ≠ fid := by
  intro he
  obtain ⟨hilen, hival⟩ := List.getElem?_eq_some.1 hi
  apply hne
  have h2 : fieldIds.get ⟨i, hilen⟩ = fieldIds.get ⟨j, hj⟩ := by
    rw [List.get_eq_getElem, List.get_eq_getElem, hival]
    rw [List.get_eq_getElem] at he
    exact he.symm
  exact congrArg Fin.val ((List.Nodup.get_inj_iff fieldIds_nodup).1 h2)

theorem parseValues_frame (pf : String → Option ℚ) :
    ∀ (values : List String) (idx : ℕ) (m : List (String × ℚ)) (fid : String),
    (∀ j (hj : j < fieldIds.length), idx ≤ j → fieldIds.get ⟨j, hj⟩ ≠ fid) →
    (parseValues pf values idx m).lookup fid = m.lookup fid := by
  intro values
  induction values with
  | nil => intro idx m fid _; rfl
  | cons v vs ih =>
    intro idx m fid hne
    show (parseValues pf vs (idx + 1) _).lookup fid = _
    rw [ih (idx + 1) _ fid (fun j hj hij => hne j hj (by omega))]
    by_cases hidx : idx < fieldIds.length
    · rw [dif_pos hidx]
      by_cases hna : v ≠ "N/A"
      · rw [if_pos hna]
        cases hpf : pf v with
        | some x =>
          exact lookup_dictInsert_ne m _ fid x
            (fun he => hne idx hidx le_rfl he.symm)
        | none => rfl
      · rw [if_neg hna]
    · rw [dif_neg hidx]

theorem parseValues_lookup (pf : String → Option ℚ) :
    ∀ (values : List String) (idx : ℕ) (m : List (String × ℚ)) (i : ℕ)
      (fid val : String), idx ≤ i → fieldIds[i]? = some fid →
      values[i - idx]? = some val →
    ((val ≠ "N/A" → ∀ x, pf val = some x →
       (parseValues pf values idx m).lookup fid = some x) ∧
     (val = "N/A" ∨ pf val = none →
       (parseValues pf values idx m).lookup fid = m.lookup fid)) := by
  intro values
  induction values with
  | nil =>
    intro idx m i fid val hle hfid hval
    rw [show ([] : List String)[i - idx]? = none from rfl] at hval
    cases hval
  | cons v vs ih =>
    intro idx m i fid val hle hfid hval
    obtain ⟨hilen, hival⟩ := List.getElem?_eq_some.1 hfid
    have hfr : ∀ j (hj : j < fieldIds.length), idx + 1 ≤ j → i < idx + 1 →
        fieldIds.get ⟨j, hj⟩ ≠ fid :=
      fun j hj hij hii => fieldIds_getElem_ne i j fid (by omega) hj hfid
    by_cases hii : idx = i
    · subst hii
      rw [Nat.sub_self, List.getElem?_cons_zero] at hval
      obtain rfl : v = val := by injection hval
      have hfe : fieldIds.get ⟨idx, hilen⟩ = fid := by
        rw [List.get_eq_getElem]; exact hival
      constructor
      · intro hna x hpf
        show (parseValues pf vs (idx + 1) _).lookup fid = some x
        rw [parseValues_frame pf vs (idx + 1) _ fid
          (fun j hj hij => hfr j hj hij (by omega))]
        rw [dif_pos hilen, if_pos hna, hpf, hfe]
        exact lookup_dictInsert_self m fid x
      · intro hdrop
        show (parseValues pf vs (idx + 1) _).lookup fid = m.lookup fid
        rw [parseValues_frame pf vs (idx + 1) _ fid
          (fun j hj hij => hfr j hj hij (by omega))]
        rw [dif_pos hilen]
        rcases hdrop with hna | hpf
        · rw [if_neg (by simp [hna])]
        · by_cases hna : v ≠ "N/A"
          · rw [if_pos hna, hpf]
          · rw [if_neg hna]
    · have hlt : idx < i := by omega
      rw [show i - idx = (i - (idx + 1)) + 1 from by omega,
          List.getElem?_cons_succ] at hval
      constructor
      · intro hna x hpf
        exact (ih (idx + 1) _ i fid val (by omega) hfid hval).1 hna x hpf
      · intro hdrop
        show (parseValues pf vs (idx + 1) _).lookup fid = m.lookup fid
        rw [(ih (idx + 1) _ i fid val (by omega) hfid hval).2 hdrop]
        by_cases hidx : idx < fieldIds.length
        · rw [dif_pos hidx]
          by_cases hna : v ≠ "N/A"
          · rw [if_pos hna]
            cases hpf2 : pf v with
            | some y =>
              exact lookup_dictInsert_ne m _ fid y
                (fun he => fieldIds_getElem_ne i idx fid (by omega) hidx hfid he.symm)
            | none => rfl
          · rw [if_neg hna]
        · rw [dif_neg hidx]

/-- C7: in the per-device field extraction of `parse_dcgmi_output`, a
raw value token that is the sentinel `N/A` or fails Python `float`
parsing is dropped — its positionally matching field id is absent from
the device's sample — while every other token of the same line that does
parse is still recorded under its field id. -/
theorem field_parse_failure_isolated (pf : String → Option ℚ)
    (values : List String) (i : ℕ) (fid val : String)
    (hfid : fieldIds[i]? = some fid) (hval : values[i]? = some val) :
    (val ≠ "N/A" → ∀ x, pf val = some x →
      (lineFields pf values).lookup fid = some x) ∧
    (val = "N/A" ∨ pf val = none → (lineFields pf values).lookup fid = none) := by
  have h := parseValues_lookup pf values 0 [] i fid val (Nat.zero_le i) hfid
    (by simpa using hval)
  exact ⟨h.1, fun hdrop => (h.2 hdrop).trans rfl⟩

/-- Witness for C7: the middle token fails to parse and only its field
is dropped; the neighbouring tokens survive. -/
theorem field_parse_failure_isolated_witness :
    (lineFields (fun s => if s = "42" then some 42 else none)
      ["42", "bad", "42"]).lookup "155" = none ∧
    (lineFields (fun s => if s = "42" then some 42 else none)
      ["42", "bad", "42"]).lookup "150" = some 42 := by
  refine ⟨(field_parse_failure_isolated (fun s => if s = "42" then some 42 else none)
      ["42", "bad", "42"] 1 "155" "bad" (by decide) (by decide)).2
      (Or.inr (by decide)), ?_⟩
  exact (field_parse_failure_isolated (fun s => if s = "42" then some 42 else none)
      ["42", "bad", "42"] 0 "150" "42" (by decide) (by decide)).1
      (by decide) 42 (by decide)

/-! ## Claim C4 — HELP/TYPE header block per registered field -/

theorem isPrefixOf_cons_false (a b : Char) (as bs : List Char) (h : (a == b) = false) :
    List.isPrefixOf (a :: as) (b :: bs) = false := by
  rw [List.isPrefixOf, h, Bool.false_and]

/-- An association-list hit is one of the stored values. -/
theorem lookup_mem_snd :
    ∀ (l : List (String × String × String)) (k : String) (v : String × String),
    l.lookup k = some v → v ∈ l.map Prod.snd := by
  intro l
  induction l with
  | nil => intro k v h; cases h
  | cons a t ih =>
    intro k v h
    obtain ⟨a1, a2⟩ := a
    rw [List.lookup] at h
    cases hbeq : (k == a1) with
    | true =>
      rw [hbeq] at h
      injection h with h2
      subst h2
      exact List.mem_cons_self _ _
    | false =>
      rw [hbeq] at h
      exact List.mem_cons_of_mem _ (ih k v h)

/-- Every registered metric name starts with `D`, so a data line (metric
name followed by its label block) can never be mistaken for a HELP or
TYPE header line. -/
theorem registered_name_not_header (p : String × String)
    (hp : p ∈ FIELD_MAPPING.map Prod.snd) (r : String) :
    pyStartswith (p.1 ++ r) "# HELP" = false ∧
    pyStartswith (p.1 ++ r) "# TYPE" = false := by
  fin_cases hp <;>
    exact ⟨isPrefixOf_cons_false '#' 'D' _ _ rfl, isPrefixOf_cons_false '#' 'D' _ _ rfl⟩

theorem dataLines_no_header (fmt : ℚ → String) (host : String)
    (info : List (String × GpuInfo)) (gm : List (String × List (String × ℚ)))
    (l : String) (hl : l ∈ dataLines fmt host info gm) :
    pyStartswith l "# HELP" = false ∧ pyStartswith l "# TYPE" = false := by
  unfold dataLines at hl
  obtain ⟨gf, _, hl2⟩ := List.mem_flatMap.1 hl
  obtain ⟨fv, _, hl3⟩ := List.mem_flatMap.1 hl2
  cases hlk : FIELD_MAPPING.lookup fv.1 with
  | none => rw [hlk] at hl3; cases hl3
  | some nh =>
    rw [hlk] at hl3
    obtain rfl : l = nh.1 ++ ("\x7b" ++ labelsFor host info gf.1 ++ "\x7d " ++ fmt fv.2) := by
      simpa [String.append_assoc] using hl3
    exact registered_name_not_header nh (lookup_mem_snd _ _ _ hlk) _

/-- C4 counterexample: the document produced by a failing tick is the
bare error marker and contains no HELP or TYPE line at all, although
nine field ids are registered — so not every tick's document carries the
header block. -/
theorem failed_tick_render_lacks_header :
    collect_metrics (fun _ => none) (fun _ => "") "h" [] .timeout =
      "# Error: dcgmi timeout\n" ∧
    hasSubstr "# HELP".data "# Error: dcgmi timeout\n".data = false ∧
    hasSubstr "# TYPE".data "# Error: dcgmi timeout\n".data = false ∧
    FIELD_MAPPING.length = 9 :=
  ⟨rfl, by decide, by decide, rfl⟩

/-- C4 (amended): every successful render — whatever the parsed metrics,
including devices reporting no field at all — contains exactly one HELP
line and one TYPE line per registered field id, in catalog order, as the
block of its first `2 × 9` lines; data lines never masquerade as header
lines.  A failing tick instead renders the single-line error marker with
no header block. -/
theorem header_block_every_field_every_render (fmt : ℚ → String) (host : String)
    (info : List (String × GpuInfo)) (gm : List (String × List (String × ℚ)))
    (pf : String → Option ℚ) (stdout : String) :
    (renderLines fmt host info gm).filter (fun l => pyStartswith l "# HELP") =
      FIELD_MAPPING.map (fun f => "# HELP " ++ f.2.1 ++ " " ++ f.2.2) ∧
    (renderLines fmt host info gm).filter (fun l => pyStartswith l "# TYPE") =
      FIELD_MAPPING.map (fun f => "# TYPE " ++ f.2.1 ++ " gauge") ∧
    (renderLines fmt host info gm).take (2 * FIELD_MAPPING.length) = headerLines ∧
    collect_metrics pf fmt host info (.run 0 stdout) =
      String.intercalate "\n"
        (renderLines fmt host info (parse_dcgmi_output pf stdout)) ++ "\n" := by
  have hdata : ∀ l ∈ (dataLines fmt host info gm).mergeSort
      (fun a b => lexLe a.data b.data),
      pyStartswith l "# HELP" = false ∧ pyStartswith l "# TYPE" = false :=
    fun l hl => dataLines_no_header fmt host info gm l (List.mem_mergeSort.1 hl)
  refine ⟨?_, ?_, ?_, ?_⟩
  · rw [renderLines, List.filter_append,
      show headerLines.filter (fun l => pyStartswith l "# HELP") =
        FIELD_MAPPING.map (fun f => "# HELP " ++ f.2.1 ++ " " ++ f.2.2) from by decide,
      List.filter_eq_nil_iff.2 (fun l hl => by simp [(hdata l hl).1]),
      List.append_nil]
  · rw [renderLines, List.filter_append,
      show headerLines.filter (fun l => pyStartswith l "# TYPE") =
        FIELD_MAPPING.map (fun f => "# TYPE " ++ f.2.1 ++ " gauge") from by decide,
      List.filter_eq_nil_iff.2 (fun l hl => by simp [(hdata l hl).2]),
      List.append_nil]
  · rw [renderLines, show 2 * FIELD_MAPPING.length = headerLines.length from by decide]
    exact List.take_left _ _
  · rfl
